import Mathlib

/-!
Shallow embedding of the booking-request API in `src/server.js`
(MGLC10/cleaning-services), and proofs of its specified properties.

The persisted store is modelled as the ordered sequence of request records
(`List Record`), the abstraction the spec assigns to the external record
store (`loadAll` / `saveAll`).  Each HTTP handler becomes a pure function
from the loaded store and its inputs to a pair: the HTTP-level result
(`Except ApiError _`) and the store that is persisted afterwards; handlers
that never call `writeRequests` on a path return the input store on that
path, mirroring the early `return` statements in the source.

JavaScript's loose typing of the JSON body fields `bedrooms`/`bathrooms`
matters to several properties (`Number(bedrooms || 0)`,
`bedrooms ? Number(bedrooms) : null`), so those fields are modelled as
scalar JSON values (`JSVal`) with JavaScript truthiness and `Number`
coercion, including `NaN`.  Numeric magnitudes are modelled as integers:
the string form of `Number()` is modelled for optionally-signed decimal
integer strings (and whitespace/empty strings, which coerce to 0); other
strings coerce to `NaN`.  The fields the data model declares as strings
are modelled as `Option String` (`none` = absent from the JSON body).
-/

namespace CleaningServices

/-- A scalar JSON value, as delivered by `express.json()` for the
loosely-typed body fields. -/
inductive JSVal where
  | undef
  | null
  | num (n : Int)
  | str (s : String)
  | bool (b : Bool)
deriving DecidableEq, Repr

/-- JavaScript truthiness of a scalar value (`undefined`, `null`, `0`,
`""`, `false` are falsy). -/
def JSVal.truthy : JSVal → Bool
  | .undef => false
  | .null => false
  | .num n => n != 0
  | .str s => s != ""
  | .bool b => b

/-- A JavaScript number that is either a finite (integer-modelled) value
or `NaN`. -/
inductive JNum where
  | nan
  | int (n : Int)
deriving DecidableEq, Repr

/-- Multiplication of a JavaScript number by an integer constant;
`NaN` is absorbing. -/
def JNum.mulI : JNum → Int → JNum
  | .nan, _ => .nan
  | .int n, k => .int (n * k)

/-- Addition of JavaScript numbers; `NaN` is absorbing. -/
def JNum.addJ : JNum → JNum → JNum
  | .nan, _ => .nan
  | _, .nan => .nan
  | .int a, .int b => .int (a + b)

/-- Value of an ASCII digit character. -/
def digitVal? (c : Char) : Option Nat :=
  if c.isDigit then some (c.toNat - 48) else none

/-- Reads a non-empty all-digit character list as a natural number;
`none` if empty or any character is not a digit. -/
def parseDigits? : List Char → Option Nat
  | [] => none
  | cs => cs.foldl (fun acc c =>
      match acc, digitVal? c with
      | some a, some d => some (a * 10 + d)
      | _, _ => none) (some 0)

/-- Whitespace for the purposes of `Number()` string trimming. -/
def isJsSpace (c : Char) : Bool :=
  c = ' ' || c = '\t' || c = '\n' || c = '\r'

/-- Strips leading and trailing whitespace from a character list. -/
def trimChars (cs : List Char) : List Char :=
  ((cs.dropWhile isJsSpace).reverse.dropWhile isJsSpace).reverse

/-- The `Number(s)` coercion for a string: whitespace-trimmed; empty coerces to 0;
an optionally-signed decimal integer string coerces to its value; any
other string coerces to `NaN`. -/
def strToNumber (s : String) : JNum :=
  match trimChars s.data with
  | [] => .int 0
  | '-' :: rest =>
      match parseDigits? rest with
      | some n => .int (-(n : Int))
      | none => .nan
  | '+' :: rest =>
      match parseDigits? rest with
      | some n => .int (n : Int)
      | none => .nan
  | cs =>
      match parseDigits? cs with
      | some n => .int (n : Int)
      | none => .nan

/-- JavaScript `Number()` coercion of a scalar value. -/
def JSVal.toNumber : JSVal → JNum
  | .undef => .nan
  | .null => .int 0
  | .num n => .int n
  | .str s => strToNumber s
  | .bool b => .int (if b then 1 else 0)

/-- JavaScript `a || b` on scalar values. -/
def jsOr (a b : JSVal) : JSVal :=
  if a.truthy then a else b

/-- Truthiness of an optionally-present string body/query field:
falsy iff absent or empty. -/
def strTruthy : Option String → Bool
  | none => false
  | some s => s != ""

/-- JavaScript `s || d` for an optionally-present string field with a
string default. -/
def strOrDefault (o : Option String) (d : String) : String :=
  match o with
  | none => d
  | some s => if s = "" then d else s

/-- The `isValidDateYYYYMMDD` helper from `server.js`: `/^\d{4}-\d{2}-\d{2}$/`. -/
def isValidDateYYYYMMDD (s : String) : Bool :=
  match s.data with
  | [a, b, c, d, h1, e, f, h2, g, h] =>
      a.isDigit && b.isDigit && c.isDigit && d.isDigit && h1 = '-' &&
      e.isDigit && f.isDigit && h2 = '-' && g.isDigit && h.isDigit
  | _ => false

/-- The `isValidTimeHHMM` helper from `server.js`: `/^\d{2}:\d{2}$/`. -/
def isValidTimeHHMM (s : String) : Bool :=
  match s.data with
  | [a, b, c, d, e] => a.isDigit && b.isDigit && c = ':' && d.isDigit && e.isDigit
  | _ => false

/-- The `makeDateTimeKey` helper from `server.js`: `` `${date} ${time}` ``. -/
def makeDateTimeKey (date time : String) : String :=
  date ++ " " ++ time

/-- A persisted request record, with the fields constructed by
`POST /api/requests`. -/
structure Record where
  id : String
  createdAt : String
  status : String
  fullName : String
  email : String
  phone : String
  serviceType : String
  propertyType : String
  address : String
  bedrooms : Option JNum
  bathrooms : Option JNum
  frequency : String
  date : String
  time : String
  dateTime : String
  notes : String
  estimateUSD : JNum
deriving DecidableEq, Repr

/-- The conflict scan shared by `GET /api/check` and `POST /api/requests`:
`requests.some(r => r.dateTime === dateTime && r.status !== "cancelled")`. -/
def isBooked (requests : List Record) (dateTime : String) : Bool :=
  requests.any (fun r => r.dateTime == dateTime && r.status != "cancelled")

/-- The error responses the handlers can produce. -/
inductive ApiError where
  | missingFields
  | badDateFormat
  | badTimeFormat
  | invalidStatus
  | conflict
  | notFound
deriving DecidableEq, Repr

/-- HTTP status code of each error response. -/
def ApiError.httpStatus : ApiError → Nat
  | .conflict => 409
  | .notFound => 404
  | _ => 400

/-- Classification per the spec's error taxonomy: malformed/missing
input (HTTP 400). -/
def ApiError.isValidationError (e : ApiError) : Bool :=
  e.httpStatus == 400

/-- The JSON body of `POST /api/requests`.  String-typed fields are
`Option String` (absent = `none`); `bedrooms`/`bathrooms` are arbitrary
scalar JSON values. -/
structure Payload where
  fullName : Option String
  email : Option String
  phone : Option String
  serviceType : Option String
  propertyType : Option String
  address : Option String
  bedrooms : JSVal
  bathrooms : JSVal
  frequency : Option String
  date : Option String
  time : Option String
  notes : Option String
deriving DecidableEq, Repr

/-- The required-field check of `POST /api/requests`
(`!fullName || !email || ... || !date || !time` negated). -/
def requiredPresent (p : Payload) : Bool :=
  strTruthy p.fullName && strTruthy p.email && strTruthy p.phone &&
  strTruthy p.serviceType && strTruthy p.propertyType && strTruthy p.address &&
  strTruthy p.date && strTruthy p.time

/-- The estimate computation of `POST /api/requests`:
`base + Number(bedrooms || 0) * 20 + Number(bathrooms || 0) * 15 + commercial`. -/
def computeEstimate (p : Payload) : JNum :=
  let base : Int := if p.serviceType.getD "" = "deep" then 180 else 120
  let bed : JNum := (jsOr p.bedrooms (.num 0)).toNumber.mulI 20
  let bath : JNum := (jsOr p.bathrooms (.num 0)).toNumber.mulI 15
  let commercial : Int := if p.propertyType.getD "" = "commercial" then 60 else 0
  (((JNum.int base).addJ bed).addJ bath).addJ (.int commercial)

/-- The `newRequest` object literal of `POST /api/requests`.  The fresh id
(`Math.random` + `Date.now`) and `createdAt` (`new Date().toISOString()`)
are nondeterministic inputs, passed in as parameters. -/
def buildRecord (p : Payload) (freshId createdAt : String) : Record :=
  let date := p.date.getD ""
  let time := p.time.getD ""
  { id := freshId
    createdAt := createdAt
    status := "pending"
    fullName := p.fullName.getD ""
    email := p.email.getD ""
    phone := p.phone.getD ""
    serviceType := p.serviceType.getD ""
    propertyType := p.propertyType.getD ""
    address := p.address.getD ""
    bedrooms := if p.bedrooms.truthy then some p.bedrooms.toNumber else none
    bathrooms := if p.bathrooms.truthy then some p.bathrooms.toNumber else none
    frequency := strOrDefault p.frequency "one-time"
    date := date
    time := time
    dateTime := makeDateTimeKey date time
    notes := strOrDefault p.notes ""
    estimateUSD := computeEstimate p }

/-- Handler of `POST /api/requests`: returns the HTTP result and the store
persisted afterwards (the input store on every early-return path). -/
def createRequest (store : List Record) (p : Payload) (freshId createdAt : String) :
    Except ApiError Record × List Record :=
  if ¬ requiredPresent p then (.error .missingFields, store)
  else if ¬ isValidDateYYYYMMDD (p.date.getD "") then (.error .badDateFormat, store)
  else if ¬ isValidTimeHHMM (p.time.getD "") then (.error .badTimeFormat, store)
  else if isBooked store (makeDateTimeKey (p.date.getD "") (p.time.getD "")) then
    (.error .conflict, store)
  else
    let r := buildRecord p freshId createdAt
    (.ok r, r :: store)

/-- The 200 body of `GET /api/check`. -/
structure CheckOk where
  available : Bool
  dateTime : String
deriving DecidableEq, Repr

/-- Handler of `GET /api/check?date=&time=`: read-only, so the persisted
store component is always the input store. -/
def checkAvailability (store : List Record) (date time : Option String) :
    Except ApiError CheckOk × List Record :=
  if ¬ strTruthy date ∨ ¬ strTruthy time then (.error .missingFields, store)
  else if ¬ isValidDateYYYYMMDD (date.getD "") then (.error .badDateFormat, store)
  else if ¬ isValidTimeHHMM (time.getD "") then (.error .badTimeFormat, store)
  else
    let dateTime := makeDateTimeKey (date.getD "") (time.getD "")
    (.ok ⟨!isBooked store dateTime, dateTime⟩, store)

/-- The allowed target statuses of `PATCH /api/admin/requests/:id`. -/
def allowedStatuses : List String :=
  ["pending", "confirmed", "completed", "cancelled"]

/-- The scan `requests.findIndex(r => r.id === id)` followed by the in-place
status overwrite: returns the updated record and the updated sequence, or
`none` when no record matches. -/
def updateFirst (id status : String) : List Record → Option (Record × List Record)
  | [] => none
  | r :: rest =>
      if r.id = id then
        let updated := { r with status := status }
        some (updated, updated :: rest)
      else
        match updateFirst id status rest with
        | none => none
        | some (u, rest') => some (u, r :: rest')

/-- Handler of `PATCH /api/admin/requests/:id` with body `{status}`. -/
def updateStatus (store : List Record) (id status : String) :
    Except ApiError Record × List Record :=
  if ¬ allowedStatuses.contains status then (.error .invalidStatus, store)
  else
    match updateFirst id status store with
    | none => (.error .notFound, store)
    | some (u, store') => (.ok u, store')

/-- Handler of `GET /api/admin/requests`: returns the stored sequence in
store order. -/
def adminListing (store : List Record) : List Record :=
  store

/-- Runs a list of creation calls in sequence, threading the store;
returns the final store and the last created record, or the first error. -/
def runCreates (store : List Record) :
    List (Payload × String × String) → Except ApiError (List Record × Option Record)
  | [] => .ok (store, none)
  | (p, i, c) :: rest =>
      match createRequest store p i c with
      | (.ok r, store') =>
          match runCreates store' rest with
          | .ok (final, last) => .ok (final, some (last.getD r))
          | .error e => .error e
      | (.error e, _) => .error e

/-- All checks of the creation operation, as one predicate: required
fields present, date and time well-formed, and the slot free. -/
def passesChecks (store : List Record) (p : Payload) : Bool :=
  requiredPresent p && isValidDateYYYYMMDD (p.date.getD "") &&
  isValidTimeHHMM (p.time.getD "") &&
  !isBooked store (makeDateTimeKey (p.date.getD "") (p.time.getD ""))

/-- A creation payload passing all checks on an empty store. -/
def samplePayload : Payload :=
  { fullName := some "Ana Lopez"
    email := some "ana@example.com"
    phone := some "555-0100"
    serviceType := some "standard"
    propertyType := some "residential"
    address := some "1 Main St"
    bedrooms := .num 3
    bathrooms := .num 2
    frequency := none
    date := some "2025-06-01"
    time := some "10:00"
    notes := none }

/-- A second accepted payload occupying a different slot. -/
def samplePayloadNoon : Payload :=
  { samplePayload with time := some "12:00" }

/-- When every check passes, creation builds the record and prepends it. -/
theorem createRequest_of_passesChecks (store : List Record) (p : Payload)
    (i c : String) (h : passesChecks store p = true) :
    createRequest store p i c = (.ok (buildRecord p i c), buildRecord p i c :: store) := by
  simp only [passesChecks, Bool.and_eq_true, Bool.not_eq_true'] at h
  obtain ⟨⟨⟨h1, h2⟩, h3⟩, h4⟩ := h
  simp [createRequest, h1, h2, h3, h4]

/-- A successful creation means every check passed, the result is the
built record, and the persisted store is that record consed on front. -/
theorem createRequest_ok_inv (store st : List Record) (p : Payload)
    (i c : String) (r : Record)
    (h : createRequest store p i c = (.ok r, st)) :
    passesChecks store p = true ∧ r = buildRecord p i c ∧ st = r :: store := by
  unfold createRequest at h
  split at h
  · simp at h
  · split at h
    · simp at h
    · split at h
      · simp at h
      · split at h
        · simp at h
        · simp only [Prod.mk.injEq, Except.ok.injEq] at h
          refine ⟨?_, h.1.symm, by rw [← h.1]; exact h.2.symm⟩
          simp_all [passesChecks]

/-- C1: after a creation succeeds for date D and time T, a subsequent
creation with the same D and T fails with ConflictError (HTTP 409) and
writes nothing; and once the record occupying the slot has been
transitioned to "cancelled", a further creation with the same D and T
succeeds. -/
theorem conflict_law_for_creation
    (store store1 : List Record) (p p2 : Payload)
    (i1 c1 i2 c2 i3 c3 : String) (r : Record)
    (hcreate : createRequest store p i1 c1 = (.ok r, store1))
    (hdate : p2.date = p.date) (htime : p2.time = p.time)
    (hreq2 : requiredPresent p2 = true) :
    (createRequest store1 p2 i2 c2 = (.error .conflict, store1) ∧
      ApiError.httpStatus .conflict = 409) ∧
    ∃ r2 store2 r3 store3,
      updateStatus store1 r.id "cancelled" = (.ok r2, store2) ∧
      createRequest store2 p2 i3 c3 = (.ok r3, store3) := by
  obtain ⟨hpass, hr, hst⟩ := createRequest_ok_inv store store1 p i1 c1 r hcreate
  subst hr
  subst hst
  simp only [passesChecks, Bool.and_eq_true, Bool.not_eq_true'] at hpass
  obtain ⟨⟨⟨hreq, hd⟩, ht⟩, hfree⟩ := hpass
  have hd2 : p2.date.getD "" = p.date.getD "" := by rw [hdate]
  have ht2 : p2.time.getD "" = p.time.getD "" := by rw [htime]
  refine ⟨⟨?_, rfl⟩, ?_⟩
  · have hbooked : isBooked (buildRecord p i1 c1 :: store)
        (makeDateTimeKey (p.date.getD "") (p.time.getD "")) = true := by
      simp [isBooked, buildRecord]
    simp [createRequest, hreq2, hd2, ht2, hd, ht, hbooked]
  · have hupd : updateStatus (buildRecord p i1 c1 :: store) (buildRecord p i1 c1).id
        "cancelled" =
        (.ok { buildRecord p i1 c1 with status := "cancelled" },
          { buildRecord p i1 c1 with status := "cancelled" } :: store) := by
      simp [updateStatus, updateFirst, allowedStatuses]
    have hbook2 : isBooked ({ buildRecord p i1 c1 with status := "cancelled" } :: store)
        (makeDateTimeKey (p.date.getD "") (p.time.getD "")) = false := by
      simp only [isBooked, List.any_cons, Bool.or_eq_false_iff, Bool.and_eq_false_iff]
      constructor
      · right
        simp
      · simpa [isBooked] using hfree
    refine ⟨{ buildRecord p i1 c1 with status := "cancelled" },
      { buildRecord p i1 c1 with status := "cancelled" } :: store,
      buildRecord p2 i3 c3,
      buildRecord p2 i3 c3 :: ({ buildRecord p i1 c1 with status := "cancelled" } :: store),
      hupd, ?_⟩
    apply createRequest_of_passesChecks
    simp [passesChecks, hreq2, hd2, ht2, hd, ht, hbook2]

/-- Witness for C1 at a concrete store and payload. -/
theorem conflict_law_for_creation_witness :
    (createRequest [buildRecord samplePayload "id1" "t1"] samplePayload "id2" "t2" =
        (.error .conflict, [buildRecord samplePayload "id1" "t1"]) ∧
      ApiError.httpStatus .conflict = 409) ∧
    ∃ r2 store2 r3 store3,
      updateStatus [buildRecord samplePayload "id1" "t1"]
          (buildRecord samplePayload "id1" "t1").id "cancelled" = (.ok r2, store2) ∧
      createRequest store2 samplePayload "id3" "t3" = (.ok r3, store3) :=
  conflict_law_for_creation [] [buildRecord samplePayload "id1" "t1"]
    samplePayload samplePayload "id1" "t1" "id2" "t2" "id3" "t3"
    (buildRecord samplePayload "id1" "t1") (by rfl) rfl rfl (by rfl)

/-- Claim C5: on every failure path of creation and of the admin status
transition, the persisted sequence is exactly the loaded one — saveAll
runs only after all checks pass. -/
theorem no_partial_write_on_failure
    (store st1 st2 : List Record) (p : Payload) (i c id status : String)
    (e1 e2 : ApiError) :
    (createRequest store p i c = (.error e1, st1) → st1 = store) ∧
    (updateStatus store id status = (.error e2, st2) → st2 = store) := by
  constructor
  · intro h
    unfold createRequest at h
    repeat' split at h
    all_goals simp_all
  · intro h
    unfold updateStatus at h
    repeat' split at h
    all_goals simp_all

/-- Witness for C5: a creation missing its email and a transition to a
bogus status both leave the empty store empty. -/
theorem no_partial_write_on_failure_witness :
    ([] : List Record) = [] ∧ ([] : List Record) = [] :=
  ⟨(no_partial_write_on_failure [] [] [] { samplePayload with email := none }
      "id1" "t1" "x" "bogus" .missingFields .invalidStatus).1 rfl,
    (no_partial_write_on_failure [] [] [] { samplePayload with email := none }
      "id1" "t1" "x" "bogus" .missingFields .invalidStatus).2 rfl⟩

/-- Claim C8: the availability check never mutates the persisted
sequence, and a repeated check with the same inputs and no intervening
mutation returns the identical result. -/
theorem checkAvailability_no_side_effects
    (store : List Record) (date time : Option String) :
    (checkAvailability store date time).2 = store ∧
    checkAvailability ((checkAvailability store date time).2) date time =
      checkAvailability store date time := by
  have h2 : (checkAvailability store date time).2 = store := by
    unfold checkAvailability
    repeat' split
    all_goals rfl
  exact ⟨h2, by rw [h2]⟩

/-- If a run of creations returns no last record, it created nothing and
the store is unchanged. -/
theorem runCreates_none (store final : List Record)
    (ps : List (Payload × String × String))
    (h : runCreates store ps = .ok (final, none)) : final = store := by
  cases ps with
  | nil =>
      simp only [runCreates, Except.ok.injEq, Prod.mk.injEq] at h
      exact h.1.symm
  | cons hd tl =>
      obtain ⟨p, i, c⟩ := hd
      unfold runCreates at h
      cases hc : createRequest store p i c with
      | mk res store1 =>
          rw [hc] at h
          cases res with
          | error e => simp at h
          | ok r =>
              cases hrest : runCreates store1 tl with
              | error e => simp [hrest] at h
              | ok pr => simp [hrest] at h

/-- Claim C6: every successful creation prepends the new record, so after
N sequential creations the admin listing's first element is the Nth
(most recent) created record. -/
theorem newest_first_listing (ps : List (Payload × String × String))
    (store final : List Record) (r : Record)
    (h : runCreates store ps = .ok (final, some r)) :
    (adminListing final).head? = some r := by
  induction ps generalizing store final r with
  | nil => simp [runCreates] at h
  | cons hd tl ih =>
      obtain ⟨p, i, c⟩ := hd
      unfold runCreates at h
      cases hc : createRequest store p i c with
      | mk res store1 =>
          rw [hc] at h
          cases res with
          | error e => simp at h
          | ok r1 =>
              cases hrest : runCreates store1 tl with
              | error e => simp [hrest] at h
              | ok pr =>
                  obtain ⟨final1, last⟩ := pr
                  simp only [hrest, Except.ok.injEq, Prod.mk.injEq] at h
                  obtain ⟨hfin, hlast⟩ := h
                  cases last with
                  | none =>
                      have hst : final1 = store1 := runCreates_none store1 final1 tl hrest
                      obtain ⟨_, hr1, hs1⟩ :=
                        createRequest_ok_inv store store1 p i c r1 hc
                      subst hfin
                      simp only [Option.getD_none] at hlast
                      have hr := Option.some.inj hlast
                      subst hr
                      rw [hst, hs1]
                      rfl
                  | some r2 =>
                      simp only [Option.getD_some] at hlast
                      have hr := Option.some.inj hlast
                      subst hr
                      subst hfin
                      exact ih store1 final1 _ hrest

/-- Witness for C6 with two concrete sequential creations. -/
theorem newest_first_listing_witness :
    (adminListing [buildRecord samplePayloadNoon "id2" "t2",
        buildRecord samplePayload "id1" "t1"]).head? =
      some (buildRecord samplePayloadNoon "id2" "t2") :=
  newest_first_listing
    [(samplePayload, "id1", "t1"), (samplePayloadNoon, "id2", "t2")]
    [] [buildRecord samplePayloadNoon "id2" "t2", buildRecord samplePayload "id1" "t1"]
    (buildRecord samplePayloadNoon "id2" "t2") (by rfl)

/-- If no stored record carries the requested id, the find-and-update
scan returns nothing. -/
theorem updateFirst_eq_none (id status : String) (rs : List Record)
    (h : ∀ r ∈ rs, r.id ≠ id) : updateFirst id status rs = none := by
  induction rs with
  | nil => rfl
  | cons x xs ih =>
      have hx : x.id ≠ id := h x (by simp)
      simp only [updateFirst, if_neg hx]
      rw [ih (fun y hy => h y (by simp [hy]))]

/-- The find-and-update scan on a sequence whose first id-match is `rec`
updates exactly `rec` and keeps everything else in place. -/
theorem updateFirst_splits (id status : String) (pre post : List Record)
    (rec : Record) (hpre : ∀ x ∈ pre, x.id ≠ id) (hrec : rec.id = id) :
    updateFirst id status (pre ++ rec :: post) =
      some ({ rec with status := status },
        pre ++ { rec with status := status } :: post) := by
  induction pre with
  | nil => simp [updateFirst, hrec]
  | cons x xs ih =>
      have hx : x.id ≠ id := hpre x (by simp)
      have ihh := ih (fun y hy => hpre y (by simp [hy]))
      simp [updateFirst, hx, ihh]

/-- Claim C7: with an allowed target status and a matching id, the admin
transition changes only the status field of the matched record, leaves
every other record in place and returns the updated record; a
disallowed status yields ValidationError 400 and an unmatched id yields
NotFoundError 404, each leaving the store unchanged. -/
theorem admin_transition_frame (store : List Record) (id status : String)
    (pre post : List Record) (rec : Record) :
    (allowedStatuses.contains status = true → store = pre ++ rec :: post →
      (∀ x ∈ pre, x.id ≠ id) → rec.id = id →
      updateStatus store id status =
        (.ok { rec with status := status },
          pre ++ { rec with status := status } :: post)) ∧
    (allowedStatuses.contains status = false →
      updateStatus store id status = (.error .invalidStatus, store) ∧
        ApiError.httpStatus .invalidStatus = 400) ∧
    (allowedStatuses.contains status = true → (∀ r ∈ store, r.id ≠ id) →
      updateStatus store id status = (.error .notFound, store) ∧
        ApiError.httpStatus .notFound = 404) := by
  refine ⟨?_, ?_, ?_⟩
  · intro hallow hsplit hpre hrec
    subst hsplit
    unfold updateStatus
    rw [if_neg (by simpa using hallow),
      updateFirst_splits id status pre post rec hpre hrec]
  · intro hallow
    refine ⟨?_, rfl⟩
    unfold updateStatus
    rw [if_pos (by simpa using hallow)]
  · intro hallow hnone
    refine ⟨?_, rfl⟩
    unfold updateStatus
    rw [if_neg (by simpa using hallow), updateFirst_eq_none id status store hnone]

/-- Witness for C7: a concrete transition to "confirmed", a bogus status,
and an unknown id. -/
theorem admin_transition_frame_witness :
    (updateStatus [buildRecord samplePayload "id1" "t1"] "id1" "confirmed" =
      (.ok { buildRecord samplePayload "id1" "t1" with status := "confirmed" },
        [{ buildRecord samplePayload "id1" "t1" with status := "confirmed" }])) ∧
    (updateStatus [buildRecord samplePayload "id1" "t1"] "id1" "bogus" =
      (.error .invalidStatus, [buildRecord samplePayload "id1" "t1"]) ∧
      ApiError.httpStatus .invalidStatus = 400) ∧
    (updateStatus [buildRecord samplePayload "id1" "t1"] "zzz" "confirmed" =
      (.error .notFound, [buildRecord samplePayload "id1" "t1"]) ∧
      ApiError.httpStatus .notFound = 404) :=
  ⟨by
    have h := (admin_transition_frame [buildRecord samplePayload "id1" "t1"]
      "id1" "confirmed" [] [] (buildRecord samplePayload "id1" "t1")).1
      rfl rfl (by simp) rfl
    simpa using h,
   (admin_transition_frame [buildRecord samplePayload "id1" "t1"]
      "id1" "bogus" [] [] (buildRecord samplePayload "id1" "t1")).2.1 rfl,
   (admin_transition_frame [buildRecord samplePayload "id1" "t1"]
      "zzz" "confirmed" [] [] (buildRecord samplePayload "id1" "t1")).2.2
      rfl (by decide)⟩

/-- Claim C4: creation fails with the missing-required-field
ValidationError exactly when one of the eight required fields is absent
or empty (so the optional fields bedrooms, bathrooms, frequency, notes
can never cause it); with all required fields present and non-empty, a
date failing the YYYY-MM-DD shape or a time failing HH:MM yields the
bad-format ValidationError; all three are HTTP 400. -/
theorem creation_validation (store : List Record) (p : Payload) (i c : String) :
    ((createRequest store p i c).1 = .error .missingFields ↔
      (strTruthy p.fullName = false ∨ strTruthy p.email = false ∨
       strTruthy p.phone = false ∨ strTruthy p.serviceType = false ∨
       strTruthy p.propertyType = false ∨ strTruthy p.address = false ∨
       strTruthy p.date = false ∨ strTruthy p.time = false)) ∧
    (requiredPresent p = true → isValidDateYYYYMMDD (p.date.getD "") = false →
      createRequest store p i c = (.error .badDateFormat, store)) ∧
    (requiredPresent p = true → isValidDateYYYYMMDD (p.date.getD "") = true →
      isValidTimeHHMM (p.time.getD "") = false →
      createRequest store p i c = (.error .badTimeFormat, store)) ∧
    (∀ (bd ba : JSVal) (fr no : Option String),
      requiredPresent
          { p with bedrooms := bd, bathrooms := ba, frequency := fr, notes := no } =
        requiredPresent p) ∧
    ApiError.isValidationError .missingFields = true ∧
    ApiError.isValidationError .badDateFormat = true ∧
    ApiError.isValidationError .badTimeFormat = true := by
  refine ⟨?_, ?_, ?_, fun bd ba fr no => rfl, rfl, rfl, rfl⟩
  · constructor
    · intro h
      by_contra hcon
      push_neg at hcon
      simp only [Bool.not_eq_false] at hcon
      obtain ⟨h1, h2, h3, h4, h5, h6, h7, h8⟩ := hcon
      have hreq : requiredPresent p = true := by
        simp [requiredPresent, h1, h2, h3, h4, h5, h6, h7, h8]
      unfold createRequest at h
      rw [if_neg (by simp [hreq])] at h
      repeat' split at h
      all_goals simp_all
    · intro h
      have hreq : requiredPresent p = false := by
        rcases h with h | h | h | h | h | h | h | h <;>
          simp [requiredPresent, h]
      unfold createRequest
      rw [if_pos (by simp [hreq])]
  · intro hreq hdate
    unfold createRequest
    rw [if_neg (by simp [hreq]), if_pos (by simp [hdate])]
  · intro hreq hdate htime
    unfold createRequest
    rw [if_neg (by simp [hreq]), if_neg (by simp [hdate]),
      if_pos (by simp [htime])]

/-- Witness for C4: a payload missing its phone, one with a malformed
date, and one with a malformed time. -/
theorem creation_validation_witness :
    (createRequest [] { samplePayload with phone := some "" } "id1" "t1").1 =
      .error .missingFields ∧
    createRequest [] { samplePayload with date := some "2025/06/01" } "id1" "t1" =
      (.error .badDateFormat, []) ∧
    createRequest [] { samplePayload with time := some "9:00" } "id1" "t1" =
      (.error .badTimeFormat, []) :=
  ⟨(creation_validation [] { samplePayload with phone := some "" } "id1" "t1").1.mpr
      (Or.inr (Or.inr (Or.inl rfl))),
   (creation_validation [] { samplePayload with date := some "2025/06/01" }
      "id1" "t1").2.1 rfl rfl,
   (creation_validation [] { samplePayload with time := some "9:00" }
      "id1" "t1").2.2.1 rfl rfl rfl⟩

/-- Claim C3 counterexample: with a present-but-empty date parameter
(`?date=&time=10:00`), the date fails the Validator's format check, yet
the handler answers with the missing-field error rather than the
bad-format error, because the truthiness test `!date` also catches the
empty string. -/
theorem check_empty_date_counterexample :
    checkAvailability [] (some "") (some "10:00") = (.error .missingFields, []) ∧
    isValidDateYYYYMMDD "" = false ∧
    (some "" : Option String) ≠ none ∧
    ApiError.missingFields ≠ ApiError.badDateFormat :=
  ⟨rfl, rfl, by decide, by decide⟩

/-- Claim C3 (amended): an absent or empty date/time yields the
missing-field ValidationError; otherwise a Validator format failure
yields the bad-format ValidationError; otherwise the handler returns
the dateTime key together with available = true iff no stored record
has that dateTime with a status other than "cancelled". -/
theorem checkAvailability_contract (store : List Record)
    (date time : Option String) :
    (strTruthy date = false ∨ strTruthy time = false →
      checkAvailability store date time = (.error .missingFields, store)) ∧
    (strTruthy date = true → strTruthy time = true →
      isValidDateYYYYMMDD (date.getD "") = false →
      checkAvailability store date time = (.error .badDateFormat, store)) ∧
    (strTruthy date = true → strTruthy time = true →
      isValidDateYYYYMMDD (date.getD "") = true →
      isValidTimeHHMM (time.getD "") = false →
      checkAvailability store date time = (.error .badTimeFormat, store)) ∧
    (strTruthy date = true → strTruthy time = true →
      isValidDateYYYYMMDD (date.getD "") = true →
      isValidTimeHHMM (time.getD "") = true →
      ∃ ok, checkAvailability store date time = (.ok ok, store) ∧
        ok.dateTime = makeDateTimeKey (date.getD "") (time.getD "") ∧
        (ok.available = true ↔
          ∀ r ∈ store, ¬(r.dateTime = ok.dateTime ∧ r.status ≠ "cancelled"))) := by
  refine ⟨?_, ?_, ?_, ?_⟩
  · intro h
    unfold checkAvailability
    rw [if_pos]
    rcases h with h | h
    · exact Or.inl (by simp [h])
    · exact Or.inr (by simp [h])
  · intro hd ht hdate
    unfold checkAvailability
    rw [if_neg (by simp [hd, ht]), if_pos (by simp [hdate])]
  · intro hd ht hdate htime
    unfold checkAvailability
    rw [if_neg (by simp [hd, ht]), if_neg (by simp [hdate]),
      if_pos (by simp [htime])]
  · intro hd ht hdate htime
    refine ⟨⟨!isBooked store (makeDateTimeKey (date.getD "") (time.getD "")),
      makeDateTimeKey (date.getD "") (time.getD "")⟩, ?_, rfl, ?_⟩
    · unfold checkAvailability
      rw [if_neg (by simp [hd, ht]), if_neg (by simp [hdate]),
        if_neg (by simp [htime])]
    · simp only [Bool.not_eq_true', isBooked, List.any_eq_false]
      constructor
      · intro h r hr hcon
        exact h r hr (by simp [hcon.1, hcon.2])
      · intro h r hr hp
        simp only [Bool.and_eq_true, beq_iff_eq, bne_iff_ne, ne_eq] at hp
        exact h r hr ⟨hp.1, hp.2⟩

/-- Witness for C3 at a store occupied by one pending record. -/
theorem checkAvailability_contract_witness :
    ∃ ok, checkAvailability [buildRecord samplePayload "id1" "t1"]
        (some "2025-06-01") (some "10:00") =
        (.ok ok, [buildRecord samplePayload "id1" "t1"]) ∧
      ok.dateTime = makeDateTimeKey "2025-06-01" "10:00" ∧
      (ok.available = true ↔
        ∀ r ∈ [buildRecord samplePayload "id1" "t1"],
          ¬(r.dateTime = ok.dateTime ∧ r.status ≠ "cancelled")) :=
  (checkAvailability_contract [buildRecord samplePayload "id1" "t1"]
    (some "2025-06-01") (some "10:00")).2.2.2 rfl rfl rfl rfl

/-- Claim C2 counterexample: bedrooms = -1 is a negative numeric input
that passes validation, yet it contributes -20 rather than 0: the
estimate for a standard residential payload with no bathrooms input
becomes 100 instead of the claimed 120. -/
theorem estimate_negative_counterexample :
    (createRequest []
        { samplePayload with bedrooms := .num (-1), bathrooms := .undef }
        "id1" "t1").1 =
      .ok (buildRecord
        { samplePayload with bedrooms := .num (-1), bathrooms := .undef }
        "id1" "t1") ∧
    (buildRecord { samplePayload with bedrooms := .num (-1), bathrooms := .undef }
        "id1" "t1").estimateUSD = .int 100 ∧
    JNum.int 100 ≠ JNum.int 120 :=
  ⟨rfl, rfl, by decide⟩

/-- Claim C2 (amended): for every accepted creation input whose bedrooms
and bathrooms are each a number or absent, estimateUSD equals
(180 if serviceType is "deep" else 120) + 20·bedrooms + 15·bathrooms +
(60 if propertyType is "commercial" else 0), where an absent field
contributes 0 and a numeric field contributes its value — including a
negative one; no accepted input makes the computation throw. -/
theorem estimate_formula (store : List Record) (p : Payload) (i c : String)
    (bn ba : Int)
    (hb : p.bedrooms = .num bn ∨ (p.bedrooms = .undef ∧ bn = 0))
    (hba : p.bathrooms = .num ba ∨ (p.bathrooms = .undef ∧ ba = 0))
    (hpass : passesChecks store p = true) :
    ∃ r st, createRequest store p i c = (.ok r, st) ∧
      r.estimateUSD = .int ((if p.serviceType = some "deep" then 180 else 120) +
        20 * bn + 15 * ba +
        (if p.propertyType = some "commercial" then 60 else 0)) := by
  refine ⟨buildRecord p i c, buildRecord p i c :: store,
    createRequest_of_passesChecks store p i c hpass, ?_⟩
  have hbase : (if p.serviceType.getD "" = "deep" then (180 : Int) else 120) =
      (if p.serviceType = some "deep" then (180 : Int) else 120) := by
    cases p.serviceType with
    | none => simp
    | some s => simp
  have hcomm : (if p.propertyType.getD "" = "commercial" then (60 : Int) else 0) =
      (if p.propertyType = some "commercial" then (60 : Int) else 0) := by
    cases p.propertyType with
    | none => simp
    | some s => simp
  have hbed : (jsOr p.bedrooms (.num 0)).toNumber = .int bn := by
    rcases hb with h | ⟨h, h0⟩
    · by_cases hz : bn = 0
      · subst hz
        simp [h, jsOr, JSVal.truthy, JSVal.toNumber]
      · simp [h, jsOr, JSVal.truthy, hz, JSVal.toNumber]
    · subst h0
      simp [h, jsOr, JSVal.truthy, JSVal.toNumber]
  have hbath : (jsOr p.bathrooms (.num 0)).toNumber = .int ba := by
    rcases hba with h | ⟨h, h0⟩
    · by_cases hz : ba = 0
      · subst hz
        simp [h, jsOr, JSVal.truthy, JSVal.toNumber]
      · simp [h, jsOr, JSVal.truthy, hz, JSVal.toNumber]
    · subst h0
      simp [h, jsOr, JSVal.truthy, JSVal.toNumber]
  show computeEstimate p = _
  rw [computeEstimate]
  rw [hbed, hbath]
  simp only [JNum.mulI, JNum.addJ, JNum.int.injEq]
  rw [hbase, hcomm]
  ring

/-- Witness for C2: the spec's 210 scenario — standard service, 3
bedrooms, 2 bathrooms, residential. -/
theorem estimate_formula_witness :
    ∃ r st, createRequest [] samplePayload "id1" "t1" = (.ok r, st) ∧
      r.estimateUSD = .int 210 := by
  obtain ⟨r, st, hcr, hest⟩ :=
    estimate_formula [] samplePayload "id1" "t1" 3 2 (Or.inl rfl) (Or.inl rfl) rfl
  refine ⟨r, st, hcr, ?_⟩
  rw [hest]
  rfl

/-- Claim C9 counterexample: an accepted payload with bedrooms = -1
stores the negative number -1 in the record's bedrooms field, which is
neither null nor non-negative. -/
theorem stored_negative_rooms_counterexample :
    (buildRecord { samplePayload with bedrooms := .num (-1), bathrooms := .undef }
        "id1" "t1").bedrooms = some (.int (-1)) ∧
    (createRequest []
        { samplePayload with bedrooms := .num (-1), bathrooms := .undef }
        "id1" "t1").1 =
      .ok (buildRecord
        { samplePayload with bedrooms := .num (-1), bathrooms := .undef }
        "id1" "t1") ∧
    (-1 : Int) < 0 :=
  ⟨rfl, rfl, by decide⟩

/-- Claim C9 (amended): for every accepted creation payload whose
bedrooms and bathrooms are numeric inputs, each stored field is null
when the input is 0 and otherwise is the input number itself — which
may be negative. -/
theorem stored_rooms_characterization (store : List Record) (p : Payload)
    (i c : String) (bn ba : Int)
    (hb : p.bedrooms = .num bn) (hba : p.bathrooms = .num ba)
    (hpass : passesChecks store p = true) :
    ∃ r st, createRequest store p i c = (.ok r, st) ∧
      r.bedrooms = (if bn = 0 then none else some (.int bn)) ∧
      r.bathrooms = (if ba = 0 then none else some (.int ba)) := by
  refine ⟨buildRecord p i c, buildRecord p i c :: store,
    createRequest_of_passesChecks store p i c hpass, ?_, ?_⟩
  · by_cases hz : bn = 0 <;>
      simp [buildRecord, hb, JSVal.truthy, JSVal.toNumber, hz]
  · by_cases hz : ba = 0 <;>
      simp [buildRecord, hba, JSVal.truthy, JSVal.toNumber, hz]

/-- Witness for C9 with 3 bedrooms and 2 bathrooms. -/
theorem stored_rooms_characterization_witness :
    ∃ r st, createRequest [] samplePayload "id1" "t1" = (.ok r, st) ∧
      r.bedrooms = some (.int 3) ∧ r.bathrooms = some (.int 2) := by
  obtain ⟨r, st, h1, h2, h3⟩ :=
    stored_rooms_characterization [] samplePayload "id1" "t1" 3 2 rfl rfl rfl
  exact ⟨r, st, h1, by simpa using h2, by simpa using h3⟩

/-- Claim C10: an accepted payload in which bedrooms (resp. bathrooms)
is the number 0 stores null for that field, and its estimateUSD equals
that of the same payload with the field absent — the contribution is 0
either way. -/
theorem zero_rooms_stored_null (store : List Record) (p : Payload)
    (i c : String) (hpass : passesChecks store p = true) :
    (p.bedrooms = .num 0 →
      ∃ r st r0 st0, createRequest store p i c = (.ok r, st) ∧
        createRequest store { p with bedrooms := .undef } i c = (.ok r0, st0) ∧
        r.bedrooms = none ∧ r.estimateUSD = r0.estimateUSD) ∧
    (p.bathrooms = .num 0 →
      ∃ r st r0 st0, createRequest store p i c = (.ok r, st) ∧
        createRequest store { p with bathrooms := .undef } i c = (.ok r0, st0) ∧
        r.bathrooms = none ∧ r.estimateUSD = r0.estimateUSD) := by
  constructor
  · intro h0
    refine ⟨buildRecord p i c, buildRecord p i c :: store,
      buildRecord { p with bedrooms := .undef } i c,
      buildRecord { p with bedrooms := .undef } i c :: store,
      createRequest_of_passesChecks store p i c hpass,
      createRequest_of_passesChecks store { p with bedrooms := .undef } i c
        (by exact hpass), ?_, ?_⟩
    · simp [buildRecord, h0, JSVal.truthy]
    · simp [buildRecord, computeEstimate, h0, jsOr, JSVal.truthy, JSVal.toNumber]
  · intro h0
    refine ⟨buildRecord p i c, buildRecord p i c :: store,
      buildRecord { p with bathrooms := .undef } i c,
      buildRecord { p with bathrooms := .undef } i c :: store,
      createRequest_of_passesChecks store p i c hpass,
      createRequest_of_passesChecks store { p with bathrooms := .undef } i c
        (by exact hpass), ?_, ?_⟩
    · simp [buildRecord, h0, JSVal.truthy]
    · simp [buildRecord, computeEstimate, h0, jsOr, JSVal.truthy, JSVal.toNumber]

/-- Witness for C10 with concrete zero-bedroom and zero-bathroom
payloads. -/
theorem zero_rooms_stored_null_witness :
    (∃ r st r0 st0,
      createRequest [] { samplePayload with bedrooms := .num 0 } "id1" "t1" =
        (.ok r, st) ∧
      createRequest []
          { { samplePayload with bedrooms := .num 0 } with bedrooms := .undef }
          "id1" "t1" = (.ok r0, st0) ∧
      r.bedrooms = none ∧ r.estimateUSD = r0.estimateUSD) ∧
    (∃ r st r0 st0,
      createRequest [] { samplePayload with bathrooms := .num 0 } "id1" "t1" =
        (.ok r, st) ∧
      createRequest []
          { { samplePayload with bathrooms := .num 0 } with bathrooms := .undef }
          "id1" "t1" = (.ok r0, st0) ∧
      r.bathrooms = none ∧ r.estimateUSD = r0.estimateUSD) :=
  ⟨(zero_rooms_stored_null [] { samplePayload with bedrooms := .num 0 }
      "id1" "t1" rfl).1 rfl,
   (zero_rooms_stored_null [] { samplePayload with bathrooms := .num 0 }
      "id1" "t1" rfl).2 rfl⟩

example : isValidDateYYYYMMDD "2024-13-99" = true := by decide
example : isValidDateYYYYMMDD "" = false := by decide
example : isValidTimeHHMM "10:00" = true := by decide
example : isValidTimeHHMM "99:99" = true := by decide
example : strToNumber "3" = .int 3 := by decide
example : strToNumber "-2" = .int (-2) := by decide
example : strToNumber "abc" = .nan := by decide
example : strToNumber "" = .int 0 := by decide

end CleaningServices
